import Mathlib

/-!
Verification development for the form-validation core of the
testando-libs-react-native repository (password/email validation,
password-strength scoring, debounced validation controller).

Every definition below is a shallow embedding of a function of the
repository source, translated statement by statement:

- src/features/form-validation/constants/errorMessages.ts (ERROR_MESSAGES)
- src/features/form-validation/constants/passwordStrength.ts (PASSWORD_STRENGTH_CONFIG)
- src/features/form-validation/utils/passwordStrength.ts (calculatePasswordStrength)
- src/features/form-validation/utils/validationHelpers.ts (checkPasswordStrength)
- src/features/form-validation/schemas/passwordSchema.ts (passwordSchema, zod v4)
- src/features/form-validation/schemas/emailSchema.ts (emailSchema, zod v4)
- src/features/form-validation/hooks/usePasswordValidation.ts (validate)
- src/features/form-validation/hooks/useEmailValidation.ts (validate)
- src/features/form-validation/hooks/useDebouncedValidation.ts (effect body)

Strings are modelled by Lean String (a sequence of characters); character
classes of the JavaScript regular expressions are modelled by explicit
character predicates over the same ASCII ranges.  The zod v4 pipeline runs
the checks of a string schema in declaration order, accumulating issue
messages, and runs every check even when an earlier one failed; the
embeddings of the two schemas reproduce exactly that order.
-/

/-! ## constants/errorMessages.ts -/

namespace ERROR_MESSAGES

def EMAIL_REQUIRED : String := "Email é obrigatório"

def EMAIL_INVALID : String := "Por favor, insira um email válido"

def EMAIL_TOO_LONG : String := "Email muito longo (máximo 254 caracteres)"

def PASSWORD_REQUIRED : String := "Senha é obrigatória"

def PASSWORD_TOO_SHORT : String := "Mínimo 6 caracteres obrigatório"

def PASSWORD_NO_UPPERCASE : String := "Deve incluir letra maiúscula"

def PASSWORD_NO_LOWERCASE : String := "Deve incluir letra minúscula"

def PASSWORD_NO_NUMBER : String := "Deve incluir número"

def PASSWORD_NO_SYMBOL : String := "Deve incluir símbolo (!@#$%^&* etc)"

def FIELD_REQUIRED : String := "Campo obrigatório"

end ERROR_MESSAGES

/-! ## constants/passwordStrength.ts -/

/-- One entry of the PASSWORD_STRENGTH_CONFIG lookup table. -/
structure StrengthLevel where
  label : String
  color : String
deriving DecidableEq, Repr

/-- The static lookup table keyed by score 0..5
(constants/passwordStrength.ts). -/
def PASSWORD_STRENGTH_CONFIG (score : Fin 6) : StrengthLevel :=
  [ { label := "Muito fraca", color := "#D32F2F" },
    { label := "Fraca", color := "#F57C00" },
    { label := "Média", color := "#FBC02D" },
    { label := "Forte", color := "#7CB342" },
    { label := "Muito forte", color := "#388E3C" },
    { label := "Excelente", color := "#1B5E20" } ].get ⟨score.val, score.isLt⟩

/-! ## The five password predicates

The password rules appear three times in the source, with textually
identical regular expressions: in schemas/passwordSchema.ts, in
utils/passwordStrength.ts (calculatePasswordStrength) and in
utils/validationHelpers.ts (checkPasswordStrength).  Each copy is embedded
separately under its own prefix (schema- / strength- / helper-) so that the
agreement of the three rule sets is a theorem, not an artifact of sharing
one definition. -/

/-- The character class of the symbol regular expression, listing the
twenty characters of the class in source order. -/
def schemaSymbolChars : List Char :=
  ['!', '@', '#', '$', '%', '^', '&', '*', '(', ')', ',', '.', '?', '\"',
   ':', '{', '}', '|', '<', '>']

def schemaMinLength (pwd : String) : Bool := decide (pwd.length ≥ 6)

def schemaHasUppercase (pwd : String) : Bool :=
  pwd.toList.any fun c => decide ('A' ≤ c ∧ c ≤ 'Z')

def schemaHasLowercase (pwd : String) : Bool :=
  pwd.toList.any fun c => decide ('a' ≤ c ∧ c ≤ 'z')

def schemaHasNumber (pwd : String) : Bool :=
  pwd.toList.any fun c => decide ('0' ≤ c ∧ c ≤ '9')

def schemaHasSymbol (pwd : String) : Bool :=
  pwd.toList.any fun c => schemaSymbolChars.contains c

def strengthSymbolChars : List Char :=
  ['!', '@', '#', '$', '%', '^', '&', '*', '(', ')', ',', '.', '?', '\"',
   ':', '{', '}', '|', '<', '>']

def strengthMinLength (password : String) : Bool := decide (password.length ≥ 6)

def strengthHasUppercase (password : String) : Bool :=
  password.toList.any fun c => decide ('A' ≤ c ∧ c ≤ 'Z')

def strengthHasLowercase (password : String) : Bool :=
  password.toList.any fun c => decide ('a' ≤ c ∧ c ≤ 'z')

def strengthHasNumber (password : String) : Bool :=
  password.toList.any fun c => decide ('0' ≤ c ∧ c ≤ '9')

def strengthHasSymbol (password : String) : Bool :=
  password.toList.any fun c => strengthSymbolChars.contains c

def helperSymbolChars : List Char :=
  ['!', '@', '#', '$', '%', '^', '&', '*', '(', ')', ',', '.', '?', '\"',
   ':', '{', '}', '|', '<', '>']

def helperMinLength (password : String) : Bool := decide (password.length ≥ 6)

def helperHasUppercase (password : String) : Bool :=
  password.toList.any fun c => decide ('A' ≤ c ∧ c ≤ 'Z')

def helperHasLowercase (password : String) : Bool :=
  password.toList.any fun c => decide ('a' ≤ c ∧ c ≤ 'z')

def helperHasNumber (password : String) : Bool :=
  password.toList.any fun c => decide ('0' ≤ c ∧ c ≤ '9')

def helperHasSymbol (password : String) : Bool :=
  password.toList.any fun c => helperSymbolChars.contains c

/-! ## utils/passwordStrength.ts : calculatePasswordStrength -/

/-- The five-key requirements map computed at the top of
calculatePasswordStrength. -/
structure Requirements where
  minLength : Bool
  hasUppercase : Bool
  hasLowercase : Bool
  hasNumber : Bool
  hasSymbol : Bool
deriving DecidableEq, Repr

/-- Count of true values in the requirements map (the spec notion used by
the invariant score == count(true values in requirements)). -/
def Requirements.trueCount (r : Requirements) : Nat :=
  [r.minLength, r.hasUppercase, r.hasLowercase, r.hasNumber, r.hasSymbol].count true

/-- The requirements record built by calculatePasswordStrength. -/
def requirementsOf (password : String) : Requirements :=
  { minLength := strengthMinLength password
    hasUppercase := strengthHasUppercase password
    hasLowercase := strengthHasLowercase password
    hasNumber := strengthHasNumber password
    hasSymbol := strengthHasSymbol password }

/-- The sequential score accumulation of calculatePasswordStrength
(five if statements, each adding one). -/
def scoreOf (r : Requirements) : Nat :=
  (if r.minLength then 1 else 0) + (if r.hasUppercase then 1 else 0) +
    (if r.hasLowercase then 1 else 0) + (if r.hasNumber then 1 else 0) +
    (if r.hasSymbol then 1 else 0)

/-- finalScore = Math.min(Math.max(score, 0), 5), typed 0..5 in the source. -/
def finalScoreOf (r : Requirements) : Fin 6 :=
  ⟨min (max (scoreOf r) 0) 5, Nat.lt_succ_of_le (Nat.min_le_right _ _)⟩

/-- The missingRequirements array: one push per unmet requirement, in the
fixed order length, uppercase, lowercase, number, symbol. -/
def missingOf (r : Requirements) : List String :=
  (if !r.minLength then [ERROR_MESSAGES.PASSWORD_TOO_SHORT] else []) ++
    (if !r.hasUppercase then [ERROR_MESSAGES.PASSWORD_NO_UPPERCASE] else []) ++
    (if !r.hasLowercase then [ERROR_MESSAGES.PASSWORD_NO_LOWERCASE] else []) ++
    (if !r.hasNumber then [ERROR_MESSAGES.PASSWORD_NO_NUMBER] else []) ++
    (if !r.hasSymbol then [ERROR_MESSAGES.PASSWORD_NO_SYMBOL] else [])

/-- The suggestions array, built in the same fixed order. -/
def suggestionsOf (r : Requirements) : List String :=
  (if !r.minLength then ["Adicione mais caracteres (mínimo 6)"] else []) ++
    (if !r.hasUppercase then ["Adicione uma letra maiúscula"] else []) ++
    (if !r.hasLowercase then ["Adicione uma letra minúscula"] else []) ++
    (if !r.hasNumber then ["Adicione um número"] else []) ++
    (if !r.hasSymbol then ["Adicione um símbolo como !@#$%^&*"] else [])

/-- The PasswordStrength report returned by calculatePasswordStrength. -/
structure PasswordStrength where
  score : Fin 6
  label : String
  requirements : Requirements
  missingRequirements : List String
  suggestions : List String
deriving DecidableEq, Repr

/-- utils/passwordStrength.ts, calculatePasswordStrength. -/
def calculatePasswordStrength (password : String) : PasswordStrength :=
  { score := finalScoreOf (requirementsOf password)
    label := (PASSWORD_STRENGTH_CONFIG (finalScoreOf (requirementsOf password))).label
    requirements := requirementsOf password
    missingRequirements := missingOf (requirementsOf password)
    suggestions := suggestionsOf (requirementsOf password) }

/-! ## utils/validationHelpers.ts : checkPasswordStrength -/

/-- The sequential score accumulation of checkPasswordStrength (same five
checks, written inline in validationHelpers.ts). -/
def helperScore (password : String) : Nat :=
  (if helperMinLength password then 1 else 0) +
    (if helperHasUppercase password then 1 else 0) +
    (if helperHasLowercase password then 1 else 0) +
    (if helperHasNumber password then 1 else 0) +
    (if helperHasSymbol password then 1 else 0)

/-- utils/validationHelpers.ts, checkPasswordStrength: the five checks, the
documented bonus branch for length ≥ 12, and the final Math.min clamp. -/
def checkPasswordStrength (password : String) : Nat :=
  if decide (password.length ≥ 12) && (helperScore password == 5) then 5
  else min (helperScore password) 5

/-! ## schemas/passwordSchema.ts (zod v4)

passwordSchema = z.string().min(6).refine(upper).refine(lower)
.refine(number).refine(symbol), each with its ERROR_MESSAGES message.
zod v4 runs the checks of the schema in declaration order and keeps
running later checks after a failure, so safeParse on a string input
yields the messages of all failed checks in declaration order. -/

/-- The ordered issue messages produced by passwordSchema.safeParse on a
string input. -/
def passwordSchemaErrors (pwd : String) : List String :=
  (if schemaMinLength pwd then [] else [ERROR_MESSAGES.PASSWORD_TOO_SHORT]) ++
    (if schemaHasUppercase pwd then [] else [ERROR_MESSAGES.PASSWORD_NO_UPPERCASE]) ++
    (if schemaHasLowercase pwd then [] else [ERROR_MESSAGES.PASSWORD_NO_LOWERCASE]) ++
    (if schemaHasNumber pwd then [] else [ERROR_MESSAGES.PASSWORD_NO_NUMBER]) ++
    (if schemaHasSymbol pwd then [] else [ERROR_MESSAGES.PASSWORD_NO_SYMBOL])

/-- safeParse success flag: no issue was recorded. -/
def passwordSchemaSuccess (pwd : String) : Bool := (passwordSchemaErrors pwd).isEmpty

/-! ## hooks/usePasswordValidation.ts : validate -/

/-- The state written by one call of the validate callback of
usePasswordValidation: the strength report plus the errors/isValid pair. -/
structure PasswordValidationOutcome where
  strength : PasswordStrength
  errors : List String
  isValid : Bool
deriving DecidableEq, Repr

/-- hooks/usePasswordValidation.ts, validate: safeParse the password
schema, recompute the strength, then either clear the errors and set
isValid, or store the issue messages and clear isValid. -/
def passwordValidate (password : String) : PasswordValidationOutcome :=
  if passwordSchemaSuccess password then
    { strength := calculatePasswordStrength password, errors := [], isValid := true }
  else
    { strength := calculatePasswordStrength password
      errors := passwordSchemaErrors password
      isValid := false }

/-! ## schemas/emailSchema.ts (zod v4)

emailSchema = z.string().min(1).max(254).email().trim().toLowerCase()
.refine(parts).  The checks run in exactly that order: the format check
(the zod default email regular expression) sees the raw string, the trim
and toLowerCase overwrites transform the running value afterwards, and the
final refinement sees the transformed value.

The zod v4 default email regular expression is
  (caret)(?!\.)(?!.*\.\.)([A-Za-z0-9_'+\-\.]*)[A-Za-z0-9_+-]
  @([A-Za-z0-9][A-Za-z0-9\-]*\.)+[A-Za-z]\x7b2,\x7d(dollar).
Since the character '@' belongs to none of its character classes, a match
always splits the string at its first '@'; the two lookaheads say that the
first character is not a dot and that no two consecutive dots occur.  The
embedding below implements exactly that deterministic reading. -/

/-- Characters allowed in the local part before its last character. -/
def isEmailLocalChar (c : Char) : Bool :=
  c.isAlphanum || c == '_' || c == '\'' || c == '+' || c == '-' || c == '.'

/-- Characters allowed as the last character of the local part. -/
def isEmailLocalEnd (c : Char) : Bool :=
  c.isAlphanum || c == '_' || c == '+' || c == '-'

/-- Characters allowed after the first character of a domain label. -/
def isDomainLabelChar (c : Char) : Bool := c.isAlphanum || c == '-'

/-- No two consecutive dots occur in the character list. -/
def noDoubleDot : List Char → Bool
  | [] => true
  | [_] => true
  | a :: b :: rest => !(a == '.' && b == '.') && noDoubleDot (b :: rest)

/-- Split a character list at its first '@', if any. -/
def splitAtFirstAt : List Char → Option (List Char × List Char)
  | [] => none
  | c :: rest =>
      if c == '@' then some ([], rest)
      else (splitAtFirstAt rest).map fun p => (c :: p.1, p.2)

/-- The local part: a possibly empty run of local characters followed by
one closing character. -/
def emailLocalOk (l : List Char) : Bool :=
  match l.getLast? with
  | none => false
  | some c => l.dropLast.all isEmailLocalChar && isEmailLocalEnd c

/-- One domain label: alphanumeric first character, then alphanumerics and
hyphens. -/
def emailLabelOk : List Char → Bool
  | [] => false
  | c :: rest => c.isAlphanum && rest.all isDomainLabelChar

/-- The final domain segment: at least two letters (letters only, which is
why the zod default rejects addresses with an IP-address domain). -/
def emailTldOk (l : List Char) : Bool :=
  decide (l.length ≥ 2) && l.all Char.isAlpha

/-- The domain: one or more dot-terminated labels followed by the final
segment.  Labels contain no dot, so the segment boundaries are exactly the
dots of the domain. -/
def emailDomainOk (l : List Char) : Bool :=
  let parts := l.splitOn '.'
  decide (parts.length ≥ 2) && parts.dropLast.all emailLabelOk &&
    emailTldOk (parts.getLast?.getD [])

/-- The zod v4 default email regular expression, as a whole-string test. -/
def emailRegexTest (s : String) : Bool :=
  (match s.toList with
   | [] => false
   | c :: _ => !(c == '.')) &&
  noDoubleDot s.toList &&
  (match splitAtFirstAt s.toList with
   | none => false
   | some (loc, dom) => emailLocalOk loc && emailDomainOk dom)

/-- The trim and toLowerCase overwrites, applied in order after the three
validating checks.  JavaScript trim removes whitespace from both ends and
toLowerCase lowercases character by character; both are written here
directly over the character list of the string (strings that matter to the
schema are ASCII: every character class of the rules is ASCII). -/
def emailNormalizedValue (s : String) : String :=
  String.mk ((((s.data.dropWhile Char.isWhitespace).reverse.dropWhile
    Char.isWhitespace).reverse).map Char.toLower)

/-- The final refinement of emailSchema, evaluated on the transformed
value: splitting the value at the character '@' yields exactly two parts
and the second part contains a
dot. -/
def emailRefineCheck (email : String) : Bool :=
  ((email.data.splitOn '@').length == 2) &&
    ((email.data.splitOn '@').getD 1 []).contains '.'

/-- The ordered issue messages produced by emailSchema.safeParse on a
string input. -/
def emailSchemaErrors (s : String) : List String :=
  (if decide (s.length ≥ 1) then [] else [ERROR_MESSAGES.EMAIL_REQUIRED]) ++
    (if decide (s.length ≤ 254) then [] else [ERROR_MESSAGES.EMAIL_TOO_LONG]) ++
    (if emailRegexTest s then [] else [ERROR_MESSAGES.EMAIL_INVALID]) ++
    (if emailRefineCheck (emailNormalizedValue s) then []
     else [ERROR_MESSAGES.EMAIL_INVALID])

/-- The result of emailSchema.safeParse on a string input: success flag,
issue messages, and the parsed (trimmed, lowercased) output value. -/
structure EmailParseResult where
  success : Bool
  errors : List String
  data : String
deriving DecidableEq, Repr

def emailSchemaParse (s : String) : EmailParseResult :=
  { success := (emailSchemaErrors s).isEmpty
    errors := emailSchemaErrors s
    data := emailNormalizedValue s }

/-! ## hooks/useEmailValidation.ts : validate -/

/-- The ValidationResult record of the source (types/index.ts), without the
validatedAt wall-clock timestamp, which the claims do not mention and which
a pure embedding does not model. -/
structure ValidationResult where
  isValid : Bool
  errors : List String
  ruleResults : List (String × Bool)
deriving DecidableEq, Repr

/-- hooks/useEmailValidation.ts, validate: safeParse the email schema and
return the outcome as data. -/
def emailValidate (email : String) : ValidationResult :=
  if (emailSchemaParse email).success then
    { isValid := true, errors := [], ruleResults := [("email", true)] }
  else
    { isValid := false
      errors := (emailSchemaParse email).errors
      ruleResults := [("email", false)] }

/-! ## hooks/useDebouncedValidation.ts : the debounced validation controller

The effect body of useDebouncedValidation runs on every value change: it
clears the pending timeout, publishes the null (idle / loading) result,
and, unless the value is empty, schedules a timer that will run the
validator on the value it captured.  The controller is modelled as a state
machine driven by two events: an edit (one run of the effect with the new
value) and a timer firing (the debounce window elapsing with no further
edit).  Edits arriving within the debounce window of each other are
therefore consecutive edit events with no fire event in between.  The
calls field records every invocation of the validator, in order. -/

inductive DebounceEvent where
  | edit (value : String)
  | fire
deriving DecidableEq, Repr

structure DebouncedController where
  validationResult : Option ValidationResult
  pending : Option String
  calls : List String
deriving Repr

/-- The state of a freshly mounted field: no result, no timer, no calls. -/
def initialController : DebouncedController :=
  { validationResult := none, pending := none, calls := [] }

/-- One transition of the controller.  An edit mirrors the effect body of
useDebouncedValidation line by line: clearTimeout on the previous timer,
the empty-value early return that publishes null without scheduling, and
the setTimeout that supersedes the pending value.  A fire delivers the
pending timer, invoking the validator on the captured value. -/
def debounceStep (validator : String → ValidationResult)
    (c : DebouncedController) : DebounceEvent → DebouncedController
  | DebounceEvent.edit v =>
      if v = "" then { c with pending := none, validationResult := none }
      else { c with pending := some v, validationResult := none }
  | DebounceEvent.fire =>
      match c.pending with
      | none => c
      | some v =>
          { validationResult := some (validator v)
            pending := none
            calls := c.calls ++ [v] }

/-- Run the controller over a sequence of events. -/
def debounceRun (validator : String → ValidationResult)
    (c : DebouncedController) (events : List DebounceEvent) : DebouncedController :=
  events.foldl (debounceStep validator) c

/-! ## Helper lemmas -/

theorem list_isEmpty_true_iff {α : Type} (l : List α) : l.isEmpty = true ↔ l = [] := by
  cases l <;> simp

theorem finalScoreOf_val_eq_trueCount (r : Requirements) :
    (finalScoreOf r).val = r.trueCount := by
  rcases r with ⟨b1, b2, b3, b4, b5⟩
  cases b1 <;> cases b2 <;> cases b3 <;> cases b4 <;> cases b5 <;> rfl

theorem missingOf_length (r : Requirements) :
    (missingOf r).length = 5 - (finalScoreOf r).val := by
  rcases r with ⟨b1, b2, b3, b4, b5⟩
  cases b1 <;> cases b2 <;> cases b3 <;> cases b4 <;> cases b5 <;> rfl

theorem finalScoreOf_eq_five_iff (r : Requirements) :
    (finalScoreOf r).val = 5 ↔
      r.minLength = true ∧ r.hasUppercase = true ∧ r.hasLowercase = true ∧
        r.hasNumber = true ∧ r.hasSymbol = true := by
  rcases r with ⟨b1, b2, b3, b4, b5⟩
  cases b1 <;> cases b2 <;> cases b3 <;> cases b4 <;> cases b5 <;> decide

theorem passwordSchemaErrors_eq_nil_iff (pwd : String) :
    passwordSchemaErrors pwd = [] ↔
      schemaMinLength pwd = true ∧ schemaHasUppercase pwd = true ∧
        schemaHasLowercase pwd = true ∧ schemaHasNumber pwd = true ∧
          schemaHasSymbol pwd = true := by
  cases h1 : schemaMinLength pwd <;> cases h2 : schemaHasUppercase pwd <;>
    cases h3 : schemaHasLowercase pwd <;> cases h4 : schemaHasNumber pwd <;>
      cases h5 : schemaHasSymbol pwd <;>
        simp [passwordSchemaErrors, h1, h2, h3, h4, h5]

theorem passwordValidate_isValid_eq (pwd : String) :
    (passwordValidate pwd).isValid = (passwordSchemaErrors pwd).isEmpty := by
  unfold passwordValidate passwordSchemaSuccess
  cases h : (passwordSchemaErrors pwd).isEmpty <;> simp [h]

/-! ## Claim theorems -/

/-- C1: for every string s, the StrengthReport returned by
calculatePasswordStrength(s) satisfies: score equals the count of true
values in the requirements map, label equals the static lookup table entry
for that score, and the length of missingRequirements equals 5 - score. -/
theorem calculatePasswordStrength_invariants (s : String) :
    ((calculatePasswordStrength s).score).val =
        (calculatePasswordStrength s).requirements.trueCount ∧
      (calculatePasswordStrength s).label =
        (PASSWORD_STRENGTH_CONFIG (calculatePasswordStrength s).score).label ∧
      (calculatePasswordStrength s).missingRequirements.length =
        5 - ((calculatePasswordStrength s).score).val :=
  ⟨finalScoreOf_val_eq_trueCount (requirementsOf s), rfl,
    missingOf_length (requirementsOf s)⟩

/-- C2: for every string s, passwordSchema validation succeeds exactly when
calculatePasswordStrength(s).score equals 5, and the five predicates used
by the schema are the identical five predicates used for strength scoring. -/
theorem passwordSchema_strength_agree (s : String) :
    ((passwordValidate s).isValid = true ↔
        ((calculatePasswordStrength s).score).val = 5) ∧
      schemaMinLength = strengthMinLength ∧
      schemaHasUppercase = strengthHasUppercase ∧
      schemaHasLowercase = strengthHasLowercase ∧
      schemaHasNumber = strengthHasNumber ∧
      schemaHasSymbol = strengthHasSymbol := by
  refine ⟨?_, rfl, rfl, rfl, rfl, rfl⟩
  rw [passwordValidate_isValid_eq, list_isEmpty_true_iff,
    passwordSchemaErrors_eq_nil_iff]
  exact (finalScoreOf_eq_five_iff (requirementsOf s)).symm

/-- C3: validating the password "abc" yields isValid false with errors
containing exactly the four messages too-short, no-uppercase, no-number,
no-symbol, in that declared order, and not the no-lowercase message. -/
theorem validatePassword_abc :
    (passwordValidate "abc").isValid = false ∧
      (passwordValidate "abc").errors =
        [ERROR_MESSAGES.PASSWORD_TOO_SHORT, ERROR_MESSAGES.PASSWORD_NO_UPPERCASE,
          ERROR_MESSAGES.PASSWORD_NO_NUMBER, ERROR_MESSAGES.PASSWORD_NO_SYMBOL] ∧
      ERROR_MESSAGES.PASSWORD_NO_LOWERCASE ∉ (passwordValidate "abc").errors := by
  decide

/-- C9: calculatePasswordStrength("") returns score 0, every requirement
false, and the label of the lookup table entry for score 0. -/
theorem calculatePasswordStrength_empty :
    (calculatePasswordStrength "").score = (0 : Fin 6) ∧
      (calculatePasswordStrength "").requirements =
        { minLength := false, hasUppercase := false, hasLowercase := false,
          hasNumber := false, hasSymbol := false } ∧
      (calculatePasswordStrength "").label =
        (PASSWORD_STRENGTH_CONFIG 0).label := by
  decide

/-- C10: for every string s, checkPasswordStrength(s) equals
calculatePasswordStrength(s).score: the two independently implemented
scorers agree, and the documented bonus branch for length ≥ 12 never
produces a value different from the plain count of requirements met. -/
theorem checkPasswordStrength_eq_calc_score (s : String) :
    checkPasswordStrength s = ((calculatePasswordStrength s).score).val := by
  have hval : ((calculatePasswordStrength s).score).val =
      min (max (scoreOf (requirementsOf s)) 0) 5 := rfl
  have hhelp : helperScore s = scoreOf (requirementsOf s) := rfl
  rw [hval, Nat.max_zero]
  unfold checkPasswordStrength
  rw [hhelp]
  cases hb : (decide (s.length ≥ 12) && (scoreOf (requirementsOf s) == 5)) with
  | false => simp
  | true =>
      have h5 : scoreOf (requirementsOf s) = 5 := by
        simpa using ((Bool.and_eq_true _ _).mp hb).2
      simp [h5]

/-- C6: feeding the controller the edits "a", "ab", "abc", each arriving
within the debounce window of the previous one (no timer fires in
between), and then letting the window elapse, produces exactly one
validation call, which evaluates "abc" only; the superseded values "a" and
"ab" are never evaluated. -/
theorem debounce_last_write_wins (validator : String → ValidationResult) :
    debounceRun validator initialController
        [DebounceEvent.edit "a", DebounceEvent.edit "ab",
          DebounceEvent.edit "abc", DebounceEvent.fire] =
      { validationResult := some (validator "abc"), pending := none,
        calls := ["abc"] } := rfl

/-- C7: when the value becomes empty, the controller clears any pending
timer and any published result in the same step, without scheduling a
validation for the empty value: no validator call is ever recorded by this
transition. -/
theorem debounce_empty_value_idles (validator : String → ValidationResult)
    (c : DebouncedController) :
    (debounceStep validator c (DebounceEvent.edit "")).pending = none ∧
      (debounceStep validator c (DebounceEvent.edit "")).validationResult = none ∧
      (debounceStep validator c (DebounceEvent.edit "")).calls = c.calls := by
  refine ⟨?_, ?_, ?_⟩ <;> simp [debounceStep]

/-- C8: validation of any string input terminates with a result in which a
rule failure is data, never an exception: both validate operations are
total functions into a result record, and the isValid flag agrees with
emptiness of the errors list (isValid false comes with at least one error
message, isValid true with none). -/
theorem validation_failure_is_data (s : String) :
    (passwordValidate s).isValid = (passwordValidate s).errors.isEmpty ∧
      (emailValidate s).isValid = (emailValidate s).errors.isEmpty := by
  constructor
  · unfold passwordValidate passwordSchemaSuccess
    cases h : (passwordSchemaErrors s).isEmpty <;> simp [h]
  · unfold emailValidate emailSchemaParse
    cases h : (emailSchemaErrors s).isEmpty <;> simp [h]

/-- C5: every string accepted by the email schema is non-empty, at most
254 characters long, matches the email-address grammar (the embedded zod
default email regular expression), and passes the refinement that
splitting the stored value at the character '@' yields exactly two parts
(exactly one '@') whose second part, the domain segment, contains a dot;
and the string "invalid-email" is rejected with the format message. -/
theorem emailSchema_accepted_shape :
    (∀ s : String, (emailValidate s).isValid = true →
        s ≠ "" ∧ s.length ≤ 254 ∧ emailRegexTest s = true ∧
          (((emailSchemaParse s).data).data.splitOn '@').length = 2 ∧
          ((((emailSchemaParse s).data).data.splitOn '@').getD 1 []).contains '.'
            = true) ∧
      (emailValidate "invalid-email").isValid = false ∧
      ERROR_MESSAGES.EMAIL_INVALID ∈ (emailValidate "invalid-email").errors := by
  refine ⟨?_, by decide, by decide⟩
  intro s h
  have hnil : emailSchemaErrors s = [] := by
    cases hs : (emailSchemaParse s).success with
    | true => exact (list_isEmpty_true_iff (emailSchemaErrors s)).mp hs
    | false =>
        unfold emailValidate at h
        rw [hs] at h
        simp at h
  unfold emailSchemaErrors at hnil
  rcases List.append_eq_nil.mp hnil with ⟨h123, h4⟩
  rcases List.append_eq_nil.mp h123 with ⟨h12, h3⟩
  rcases List.append_eq_nil.mp h12 with ⟨h1, h2⟩
  have c1 : decide (s.length ≥ 1) = true := by
    cases hd : decide (s.length ≥ 1) with
    | true => rfl
    | false => rw [hd] at h1; simp at h1
  have c2 : decide (s.length ≤ 254) = true := by
    cases hd : decide (s.length ≤ 254) with
    | true => rfl
    | false => rw [hd] at h2; simp at h2
  have c3 : emailRegexTest s = true := by
    cases hd : emailRegexTest s with
    | true => rfl
    | false => rw [hd] at h3; simp at h3
  have c4 : emailRefineCheck (emailNormalizedValue s) = true := by
    cases hd : emailRefineCheck (emailNormalizedValue s) with
    | true => rfl
    | false => rw [hd] at h4; simp at h4
  unfold emailRefineCheck at c4
  rcases (Bool.and_eq_true _ _).mp c4 with ⟨c4a, c4b⟩
  have c1n : 1 ≤ s.length := of_decide_eq_true c1
  refine ⟨?_, of_decide_eq_true c2, c3, ?_, c4b⟩
  · intro he
    rw [he] at c1n
    exact absurd c1n (by decide)
  · simpa using c4a

/-- Witness for the universal part of the acceptance-shape theorem: the
address test@example.com is accepted and realizes the conclusion. -/
theorem emailSchema_accepted_shape_witness :
    (emailValidate "test@example.com").isValid = true ∧
      ("test@example.com" ≠ "" ∧ ("test@example.com" : String).length ≤ 254 ∧
        emailRegexTest "test@example.com" = true ∧
        (((emailSchemaParse "test@example.com").data).data.splitOn '@').length
          = 2 ∧
        ((((emailSchemaParse "test@example.com").data).data.splitOn '@').getD 1
            []).contains '.' = true) :=
  ⟨by decide, emailSchema_accepted_shape.1 "test@example.com" (by decide)⟩

/-- C4 (a bug of the code, not of the claim): emailSchema declares the
format check before the trim and toLowerCase transforms, and zod runs the
checks of a string schema in declaration order, so the format rule sees
the raw, still padded string and rejects it; the schema documentation and
the spec promise that the padded address is accepted.  The normalization
itself does happen, but only after the rule: the parsed output value is
the trimmed, lowercased address, and the unpadded spelling of the same
address is accepted. -/
theorem emailSchema_padded_input_rejected :
    (emailValidate "  Test@Example.com  ").isValid = false ∧
      ERROR_MESSAGES.EMAIL_INVALID ∈ (emailValidate "  Test@Example.com  ").errors ∧
      (emailSchemaParse "  Test@Example.com  ").data = "test@example.com" ∧
      (emailValidate "Test@Example.com").isValid = true := by
  decide
